import Mathlib

/-!
Verification of the QuickDesk help-desk workflow against its specification.

The definitions below are a shallow embedding of the client-side workflow
code: the vote-toggle logic shared by the ticket list and the ticket detail
view, the assignment / status-update handlers of the support dashboard, the
role-upgrade handler of the admin panel, the question-form validation and
submission, the email service, and the send-email API
route.  JavaScript numbers holding vote counters are modelled
as integers; fields a document may lack, and JavaScript values that may be
null or undefined, are modelled as options.  Remote document collections are
modelled as functions from document id to an optional document.  The html
variant of each email body is presentation markup mirroring the plain-text
body and is not modelled; no examined property depends on it.
-/

namespace QuickDesk

/-- A vote kind, mirroring the literal union upvote | downvote. -/
inductive VoteKind where
  | upvote
  | downvote
deriving DecidableEq, Repr

/-- The three values the vote handlers compute before the two writes:
the new upvote counter, the new downvote counter, and the vote record that
remains for the acting voter (none means the record was deleted). -/
structure VoteOutcome where
  newUpvotes : Int
  newDownvotes : Int
  newVote : Option VoteKind
deriving DecidableEq, Repr

/-- Core of handleVote, identical in the ticket list and in the ticket
detail view: given the ticket counters, the current vote record of the
acting voter and the requested kind, compute the new counters and the new
vote record.  Decrements are floored at zero with max, exactly as the
source applies Math.max(0, n - 1); increments are plain additions. -/
def handleVote (upvotes downvotes : Int) (currentVote : Option VoteKind)
    (ty : VoteKind) : VoteOutcome :=
  if currentVote = some ty then
    match ty with
    | .upvote => ⟨max 0 (upvotes - 1), downvotes, none⟩
    | .downvote => ⟨upvotes, max 0 (downvotes - 1), none⟩
  else
    match currentVote with
    | some .upvote => ⟨max 0 (upvotes - 1), downvotes + 1, some ty⟩
    | some .downvote => ⟨upvotes + 1, max 0 (downvotes - 1), some ty⟩
    | none =>
      match ty with
      | .upvote => ⟨upvotes + 1, downvotes, some ty⟩
      | .downvote => ⟨upvotes, downvotes + 1, some ty⟩

/-- The vote-relevant state of one ticket: its two counters together with
the votes sub-collection, keyed by voter id. -/
structure TicketVotes where
  upvotes : Int
  downvotes : Int
  votes : String → Option VoteKind

/-- One completed vote-toggle by a given voter on a ticket: the counters
are replaced by the computed ones and the voter entry of the votes
sub-collection is replaced by the computed vote record. -/
def applyVote (t : TicketVotes) (voter : String) (ty : VoteKind) : TicketVotes :=
  let o := handleVote t.upvotes t.downvotes (t.votes voter) ty
  ⟨o.newUpvotes, o.newDownvotes,
    fun v => if v = voter then o.newVote else t.votes v⟩

/-- Sequential composition of a list of vote-toggles, each given as a pair
of acting voter and requested kind. -/
def applyVotes (t : TicketVotes) (ops : List (String × VoteKind)) : TicketVotes :=
  ops.foldl (fun s p => applyVote s p.1 p.2) t

/-- The full entry point of handleVote with its guards: the handler
returns without any write when there is no authenticated user, when a vote
for this ticket is already in flight (the voting lock), or when the ticket
is not found in the loaded collection; otherwise the single ticket entry is
replaced by the result of the toggle. -/
def handleVoteGuarded (user : Option String) (voting : Bool)
    (tickets : String → Option TicketVotes) (ticketId : String)
    (ty : VoteKind) : String → Option TicketVotes :=
  match user with
  | none => tickets
  | some uid =>
    if voting then tickets
    else
      match tickets ticketId with
      | none => tickets
      | some t => fun id => if id = ticketId then some (applyVote t uid ty)
          else tickets id

/-- A ticket document as read and written by the support dashboard:
assignment fields are optional because an unassigned ticket lacks them. -/
structure TicketDoc where
  title : String
  description : String
  category : String
  status : String
  userId : String
  userName : String
  replyCount : Int
  upvotes : Int
  downvotes : Int
  assignedTo : Option String
  assignedToName : Option String
deriving DecidableEq, Repr

/-- handleAssignTicket of the support dashboard: the update writes the
acting agent as assignee, the agent profile name as assignee name, and
status in-progress, leaving every other field of the document alone. -/
def handleAssignTicket (t : TicketDoc) (uid name : String) : TicketDoc :=
  { t with assignedTo := some uid, assignedToName := some name,
           status := "in-progress" }

/-- handleUpdateStatus of the support dashboard: the update writes only
the status field. -/
def handleUpdateStatus (t : TicketDoc) (newStatus : String) : TicketDoc :=
  { t with status := newStatus }

/-- A user document as read by the admin panel. -/
structure UserRecord where
  email : String
  role : String
  name : String
deriving DecidableEq, Repr

/-- A role-upgrade request document as read by the admin panel. -/
structure RoleUpgradeRequest where
  userId : String
  userName : String
  userEmail : String
  currentRole : String
  requestedRole : String
  status : String
  reason : String
deriving DecidableEq, Repr

/-- The two actions handleRoleRequest accepts. -/
inductive RoleAction where
  | approve
  | reject
deriving DecidableEq, Repr

/-- The collections the admin panel mutates, keyed by document id. -/
structure AdminState where
  users : String → Option UserRecord
  requests : String → Option RoleUpgradeRequest

/-- handleRoleRequest of the admin panel.  A request id not found in the
loaded list returns without a write.  On approve the target user role is
set to the requested role and then the request status is set to approved;
when the target user document is missing the role write fails, the caught
error skips the status write, and no state changes.  On reject only the
request status is set to rejected. -/
def handleRoleRequest (s : AdminState) (requestId : String)
    (action : RoleAction) : AdminState :=
  match s.requests requestId with
  | none => s
  | some request =>
    match action with
    | .approve =>
      match s.users request.userId with
      | none => s
      | some u =>
        ⟨fun id => if id = request.userId then
            some { u with role := request.requestedRole } else s.users id,
         fun id => if id = requestId then
            some { request with status := "approved" } else s.requests id⟩
    | .reject =>
      ⟨s.users,
       fun id => if id = requestId then
          some { request with status := "rejected" } else s.requests id⟩

/-- A concrete pending role-upgrade request used by a witness. -/
def sampleRequest : RoleUpgradeRequest :=
  ⟨"u1", "Ada", "ada@example.com", "end-user", "support-agent", "pending",
   "I help a lot"⟩

/-- A concrete user record used by a witness. -/
def sampleUser : UserRecord := ⟨"ada@example.com", "end-user", "Ada"⟩

/-- A concrete admin state with one pending request used by a witness. -/
def sampleAdminState : AdminState :=
  ⟨fun id => if id = "u1" then some sampleUser else none,
   fun id => if id = "r1" then some sampleRequest else none⟩

/-- A concrete ticket document used in concrete evaluations. -/
def sampleTicket : TicketDoc :=
  ⟨"Printer broken", "It jams on every page", "technical", "open", "u1",
   "Ada", 0, 0, 0, none, none⟩

/-- The JavaScript or-else on a possibly undefined string: a missing or
empty (falsy) value falls through to the default. -/
def jsOr : Option String → String → String
  | none, d => d
  | some s, d => if s = "" then d else s

/-- The data of the question form: title, description, category and the
optional comma-separated tags field. -/
structure QuestionFormData where
  title : String
  description : String
  category : String
  tags : Option String
deriving DecidableEq, Repr

/-- questionSchema of the ask-question form: title at least 5 characters,
description at least 10 characters, category at least 1 character. -/
def questionSchema (d : QuestionFormData) : Bool :=
  decide (5 ≤ d.title.length) && decide (10 ≤ d.description.length) &&
    decide (1 ≤ d.category.length)

/-- The ticket document built by onSubmit of the ask-question form. -/
structure NewTicket where
  title : String
  description : String
  category : String
  tags : List String
  status : String
  userId : String
  userName : String
  replyCount : Int
  upvotes : Int
  downvotes : Int
deriving DecidableEq, Repr

/-- Ticket creation: the form resolver runs questionSchema first and a
failing validation never reaches onSubmit, so nothing is persisted; on
success onSubmit persists the ticket document with the entered fields, the
split and trimmed tags, status open and all three counters zero. -/
def submitQuestion (d : QuestionFormData) (uid userName : String) :
    Option NewTicket :=
  if questionSchema d then
    some { title := d.title, description := d.description,
           category := d.category,
           tags := (match d.tags with
                    | some t => (t.splitOn ",").map (fun tag => tag.trim)
                    | none => []),
           status := "open", userId := uid, userName := userName,
           replyCount := 0, upvotes := 0, downvotes := 0 }
  else none

/-- The argument record of the email-service notification helpers. -/
structure TicketNotificationData where
  ticketId : String
  ticketTitle : String
  userName : String
  userEmail : String
  status : Option String
  category : Option String
  description : Option String
deriving DecidableEq, Repr

/-- The payload handed to sendEmail; the html variant of the body is not
modelled.  Whitespace of the source template literals is normalised. -/
structure EmailData where
  «to» : String
  subject : String
  body : String
deriving DecidableEq, Repr

/-- sendTicketCreatedNotification of the email service: the message is
addressed to the fixed support inbox. -/
def sendTicketCreatedNotification (d : TicketNotificationData) : EmailData :=
  { «to» := "support@company.com",
    subject := "New Ticket Created: " ++ d.ticketTitle,
    body := "A new ticket has been created:\n\nTicket ID: " ++ d.ticketId
      ++ "\nTitle: " ++ d.ticketTitle
      ++ "\nCreated by: " ++ d.userName ++ " (" ++ d.userEmail ++ ")"
      ++ "\nCategory: " ++ jsOr d.category "General"
      ++ "\n\nDescription:\n" ++ jsOr d.description "No description provided"
      ++ "\n\nPlease log in to the QuickDesk system to review and respond to this ticket." }

/-- sendTicketStatusUpdateNotification of the email service: the message
is addressed to whatever the caller supplies as the user email. -/
def sendTicketStatusUpdateNotification (d : TicketNotificationData) :
    EmailData :=
  { «to» := d.userEmail,
    subject := "Ticket Status Updated: " ++ d.ticketTitle,
    body := "Your ticket status has been updated:\n\nTicket ID: " ++ d.ticketId
      ++ "\nTitle: " ++ d.ticketTitle
      ++ "\nNew Status: " ++ (d.status.getD "undefined")
      ++ "\n\nPlease log in to the QuickDesk system to view the latest updates." }

/-- The email dispatched by handleUpdateStatus of the support dashboard
for a status change: the caller fills the notification data from the
ticket document but passes the empty string as the user email (the source
carries a comment that the address would need to come from the user
profile, and never looks it up). -/
def handleUpdateStatusEmail (t : TicketDoc) (ticketId newStatus : String) :
    EmailData :=
  sendTicketStatusUpdateNotification
    ⟨ticketId, t.title, t.userName, "", some newStatus, none, none⟩

/-- The email dispatched by handleAssignTicket of the support dashboard:
same notification data, with status in-progress and again the empty string
as the user email. -/
def handleAssignTicketEmail (t : TicketDoc) (ticketId : String) : EmailData :=
  sendTicketStatusUpdateNotification
    ⟨ticketId, t.title, t.userName, "", some "in-progress", none, none⟩

/-- The parsed JSON body received by the send-email route; absent fields
are none. -/
structure EmailRequestBody where
  «to» : Option String
  subject : Option String
  body : Option String
  html : Option String
deriving DecidableEq, Repr

/-- JavaScript falsiness of a possibly absent string: undefined and the
empty string are falsy. -/
def isFalsy : Option String → Bool
  | none => true
  | some s => s == ""

/-- The HTTP status and whether the JSON payload carries success true. -/
structure PostResponse where
  status : Nat
  success : Bool
deriving DecidableEq, Repr

/-- Outcome of the outbound provider call. -/
inductive ResendOutcome where
  | ok
  | failedSend
deriving DecidableEq, Repr

/-- POST handler of the send-email route.  It validates the required
fields first, then short-circuits with a success response when the service
flag is not the string true or when no provider key is configured, and
only then contacts the provider.  The second component records whether a
provider send was performed. -/
def postSendEmail (emailServiceEnabled hasApiKey : Bool)
    (req : EmailRequestBody) (resend : ResendOutcome) :
    PostResponse × Bool :=
  if isFalsy req.«to» || isFalsy req.subject || isFalsy req.body then
    (⟨400, false⟩, false)
  else if !emailServiceEnabled then (⟨200, true⟩, false)
  else if !hasApiKey then (⟨200, true⟩, false)
  else
    match resend with
    | .failedSend => (⟨500, false⟩, true)
    | .ok => (⟨200, true⟩, true)

/-- Client-side sendEmail of the email service: when the service flag is
off it returns true at once; otherwise it performs the fetch, whose
outcome is none for a thrown network error and some of the response-ok
flag otherwise.  The second component records whether the endpoint was
contacted. -/
def sendEmail (isEnabled : Bool) (fetchResult : Option Bool) : Bool × Bool :=
  if !isEnabled then (true, false)
  else
    match fetchResult with
    | none => (false, true)
    | some respOk => (respOk, true)

end QuickDesk

namespace QuickDesk

/-- A string is empty exactly when its length is zero. -/
theorem string_length_eq_zero_iff (s : String) : s.length = 0 ↔ s = "" := by
  rw [← String.length_data]
  constructor
  · intro h
    have hdata : s.data = [] := List.length_eq_zero.mp h
    cases s with
    | mk data => rw [show data = [] from hdata]
  · intro h
    subst h
    rfl

/-- C1: starting with no vote record for the voter and non-negative
counters, toggling the same kind twice deletes the vote record again and
restores both counters to their pre-sequence values. -/
theorem vote_double_toggle_roundtrip (t : TicketVotes) (v : String) (k : VoteKind)
    (hnone : t.votes v = none) (hu : 0 ≤ t.upvotes) (hd : 0 ≤ t.downvotes) :
    (applyVote (applyVote t v k) v k).votes v = none ∧
    (applyVote (applyVote t v k) v k).upvotes = t.upvotes ∧
    (applyVote (applyVote t v k) v k).downvotes = t.downvotes := by
  cases k <;>
    simp only [applyVote, handleVote, hnone] <;>
    refine ⟨by simp, ?_, ?_⟩ <;> simp <;> omega

/-- Witness for C1 at a concrete ticket state. -/
theorem vote_double_toggle_roundtrip_witness :
    (applyVote (applyVote ⟨3, 2, fun _ => none⟩ "v" .upvote) "v" .upvote).votes "v"
      = none ∧
    (applyVote (applyVote ⟨3, 2, fun _ => none⟩ "v" .upvote) "v" .upvote).upvotes = 3 ∧
    (applyVote (applyVote ⟨3, 2, fun _ => none⟩ "v" .upvote) "v" .upvote).downvotes = 2 :=
  vote_double_toggle_roundtrip ⟨3, 2, fun _ => none⟩ "v" .upvote rfl
    (by decide) (by decide)

/-- C2: switching an existing upvote to a downvote decrements the upvote
counter by one, floored at zero, increments the downvote counter by one,
and stores a downvote record for the voter. -/
theorem vote_switch_up_to_down (t : TicketVotes) (v : String)
    (hup : t.votes v = some .upvote) :
    (applyVote t v .downvote).upvotes = max 0 (t.upvotes - 1) ∧
    (applyVote t v .downvote).downvotes = t.downvotes + 1 ∧
    (applyVote t v .downvote).votes v = some .downvote := by
  simp [applyVote, handleVote, hup]

/-- Witness for C2 at a concrete ticket state. -/
theorem vote_switch_up_to_down_witness :
    (applyVote ⟨5, 1, fun _ => some .upvote⟩ "v" .downvote).upvotes = 4 ∧
    (applyVote ⟨5, 1, fun _ => some .upvote⟩ "v" .downvote).downvotes = 2 ∧
    (applyVote ⟨5, 1, fun _ => some .upvote⟩ "v" .downvote).votes "v"
      = some .downvote := by
  have h := vote_switch_up_to_down ⟨5, 1, fun _ => some .upvote⟩ "v" rfl
  exact ⟨h.1.trans (by decide), h.2.1.trans (by decide), h.2.2⟩

/-- A single vote-toggle keeps both counters non-negative. -/
theorem applyVote_nonneg (t : TicketVotes) (v : String) (k : VoteKind)
    (hu : 0 ≤ t.upvotes) (hd : 0 ≤ t.downvotes) :
    0 ≤ (applyVote t v k).upvotes ∧ 0 ≤ (applyVote t v k).downvotes := by
  rcases hc : t.votes v with _ | k' <;> [skip; cases k'] <;> cases k <;>
    simp [applyVote, handleVote, hc] <;> omega

/-- C3: any sequence of vote-toggles, in any order by any voters, keeps
both counters of a ticket non-negative when they start non-negative. -/
theorem applyVotes_nonneg (t : TicketVotes) (ops : List (String × VoteKind))
    (hu : 0 ≤ t.upvotes) (hd : 0 ≤ t.downvotes) :
    0 ≤ (applyVotes t ops).upvotes ∧ 0 ≤ (applyVotes t ops).downvotes := by
  induction ops generalizing t with
  | nil => exact ⟨hu, hd⟩
  | cons p rest ih =>
    have h := applyVote_nonneg t p.1 p.2 hu hd
    simpa [applyVotes, List.foldl_cons] using ih (applyVote t p.1 p.2) h.1 h.2

/-- Witness for C3 at a concrete ticket state and operation sequence. -/
theorem applyVotes_nonneg_witness :
    0 ≤ (applyVotes ⟨0, 0, fun _ => none⟩
        [("a", .upvote), ("b", .downvote), ("a", .upvote)]).upvotes ∧
    0 ≤ (applyVotes ⟨0, 0, fun _ => none⟩
        [("a", .upvote), ("b", .downvote), ("a", .upvote)]).downvotes :=
  applyVotes_nonneg ⟨0, 0, fun _ => none⟩
    [("a", .upvote), ("b", .downvote), ("a", .upvote)] (by decide) (by decide)

/-- C8: the vote-toggle is a no-op on the whole collection when the actor
is unauthenticated, and likewise when the referenced ticket does not
exist. -/
theorem handleVoteGuarded_noop (voting : Bool)
    (tickets : String → Option TicketVotes) (ticketId : String) (ty : VoteKind) :
    handleVoteGuarded none voting tickets ticketId ty = tickets ∧
    ∀ uid, tickets ticketId = none →
      handleVoteGuarded (some uid) voting tickets ticketId ty = tickets := by
  refine ⟨rfl, fun uid hmiss => ?_⟩
  cases voting <;> simp [handleVoteGuarded, hmiss]

/-- Witness for C8 on a concrete empty collection. -/
theorem handleVoteGuarded_noop_witness :
    handleVoteGuarded none false (fun _ => none) "t1" .upvote = (fun _ => none) ∧
    handleVoteGuarded (some "u") false (fun _ => none) "t1" .upvote
      = (fun _ => none) :=
  ⟨(handleVoteGuarded_noop false (fun _ => none) "t1" .upvote).1,
   (handleVoteGuarded_noop false (fun _ => none) "t1" .upvote).2 "u" rfl⟩

/-- C5: assigning a ticket to agent A sets the assignee fields to A and the
status to in-progress; a subsequent status update to resolved changes the
status alone, leaving the assignee at A and every other field as it was
before the assignment. -/
theorem assign_then_resolve_frame (t : TicketDoc) (uid name : String) :
    (handleAssignTicket t uid name).assignedTo = some uid ∧
    (handleAssignTicket t uid name).status = "in-progress" ∧
    (handleUpdateStatus (handleAssignTicket t uid name) "resolved")
      = { handleAssignTicket t uid name with status := "resolved" } ∧
    (handleUpdateStatus (handleAssignTicket t uid name) "resolved").assignedTo
      = some uid ∧
    (handleUpdateStatus (handleAssignTicket t uid name) "resolved").assignedToName
      = some name ∧
    (handleUpdateStatus (handleAssignTicket t uid name) "resolved").status
      = "resolved" ∧
    (handleUpdateStatus (handleAssignTicket t uid name) "resolved").title
      = t.title ∧
    (handleUpdateStatus (handleAssignTicket t uid name) "resolved").description
      = t.description ∧
    (handleUpdateStatus (handleAssignTicket t uid name) "resolved").category
      = t.category ∧
    (handleUpdateStatus (handleAssignTicket t uid name) "resolved").userId
      = t.userId ∧
    (handleUpdateStatus (handleAssignTicket t uid name) "resolved").userName
      = t.userName ∧
    (handleUpdateStatus (handleAssignTicket t uid name) "resolved").replyCount
      = t.replyCount ∧
    (handleUpdateStatus (handleAssignTicket t uid name) "resolved").upvotes
      = t.upvotes ∧
    (handleUpdateStatus (handleAssignTicket t uid name) "resolved").downvotes
      = t.downvotes := by
  simp [handleAssignTicket, handleUpdateStatus]

/-- C6: on a pending request whose target profile exists, approval marks
the request approved and sets the target role to the requested role, while
rejection marks the request rejected and leaves the target profile
untouched. -/
theorem roleRequest_approve_reject (s : AdminState) (rid : String)
    (req : RoleUpgradeRequest) (u : UserRecord)
    (hreq : s.requests rid = some req) (_hpend : req.status = "pending")
    (huser : s.users req.userId = some u) :
    (handleRoleRequest s rid .approve).requests rid
      = some { req with status := "approved" } ∧
    (handleRoleRequest s rid .approve).users req.userId
      = some { u with role := req.requestedRole } ∧
    (handleRoleRequest s rid .reject).requests rid
      = some { req with status := "rejected" } ∧
    (handleRoleRequest s rid .reject).users req.userId = some u := by
  simp [handleRoleRequest, hreq, huser]

/-- Witness for C6 at the concrete admin state. -/
theorem roleRequest_approve_reject_witness :
    (handleRoleRequest sampleAdminState "r1" .approve).requests "r1"
      = some { sampleRequest with status := "approved" } ∧
    (handleRoleRequest sampleAdminState "r1" .approve).users "u1"
      = some { sampleUser with role := "support-agent" } ∧
    (handleRoleRequest sampleAdminState "r1" .reject).requests "r1"
      = some { sampleRequest with status := "rejected" } ∧
    (handleRoleRequest sampleAdminState "r1" .reject).users "u1"
      = some sampleUser :=
  roleRequest_approve_reject sampleAdminState "r1" sampleRequest sampleUser
    rfl rfl rfl

/-- C7: a title shorter than 5 characters, a description shorter than 10
characters or an empty category is rejected before persistence; valid
input is persisted with the entered fields, status open and the reply,
upvote and downvote counters at zero. -/
theorem submitQuestion_validation (d : QuestionFormData) (uid userName : String) :
    (d.title.length < 5 ∨ d.description.length < 10 ∨ d.category = "" →
      submitQuestion d uid userName = none) ∧
    (5 ≤ d.title.length → 10 ≤ d.description.length → d.category ≠ "" →
      (submitQuestion d uid userName).isSome = true ∧
      (submitQuestion d uid userName).map NewTicket.status = some "open" ∧
      (submitQuestion d uid userName).map NewTicket.upvotes = some 0 ∧
      (submitQuestion d uid userName).map NewTicket.downvotes = some 0 ∧
      (submitQuestion d uid userName).map NewTicket.replyCount = some 0 ∧
      (submitQuestion d uid userName).map NewTicket.title = some d.title ∧
      (submitQuestion d uid userName).map NewTicket.description
        = some d.description ∧
      (submitQuestion d uid userName).map NewTicket.category
        = some d.category) := by
  constructor
  · rintro (h | h | h)
    · have hq : questionSchema d = false := by
        simp only [questionSchema, Bool.and_eq_false_iff, decide_eq_false_iff_not]
        omega
      simp [submitQuestion, hq]
    · have hq : questionSchema d = false := by
        simp only [questionSchema, Bool.and_eq_false_iff, decide_eq_false_iff_not]
        omega
      simp [submitQuestion, hq]
    · have hlen : d.category.length = 0 := (string_length_eq_zero_iff _).mpr h
      have hq : questionSchema d = false := by
        simp only [questionSchema, Bool.and_eq_false_iff, decide_eq_false_iff_not]
        omega
      simp [submitQuestion, hq]
  · intro h1 h2 h3
    have hc : 1 ≤ d.category.length := by
      rcases Nat.eq_zero_or_pos d.category.length with h0 | h0
      · exact absurd ((string_length_eq_zero_iff _).mp h0) h3
      · exact h0
    have hq : questionSchema d = true := by
      simp only [questionSchema, Bool.and_eq_true, decide_eq_true_eq]
      exact ⟨⟨h1, h2⟩, hc⟩
    simp [submitQuestion, hq]

/-- Witness for C7: a four-character title is rejected, and a valid
submission is persisted with status open and zero counters. -/
theorem submitQuestion_validation_witness :
    submitQuestion ⟨"abcd", "0123456789", "general", none⟩ "u1" "Ada" = none ∧
    (submitQuestion ⟨"abcde", "0123456789", "general", none⟩ "u1" "Ada").isSome
      = true ∧
    (submitQuestion ⟨"abcde", "0123456789", "general", none⟩ "u1" "Ada").map
      NewTicket.status = some "open" ∧
    (submitQuestion ⟨"abcde", "0123456789", "general", none⟩ "u1" "Ada").map
      NewTicket.upvotes = some 0 ∧
    (submitQuestion ⟨"abcde", "0123456789", "general", none⟩ "u1" "Ada").map
      NewTicket.downvotes = some 0 ∧
    (submitQuestion ⟨"abcde", "0123456789", "general", none⟩ "u1" "Ada").map
      NewTicket.replyCount = some 0 := by
  have hrej := (submitQuestion_validation ⟨"abcd", "0123456789", "general", none⟩
    "u1" "Ada").1 (Or.inl (by decide))
  have hok := (submitQuestion_validation ⟨"abcde", "0123456789", "general", none⟩
    "u1" "Ada").2 (by decide) (by decide) (by decide)
  exact ⟨hrej, hok.1, hok.2.1, hok.2.2.1, hok.2.2.2.1, hok.2.2.2.2.1⟩

/-- C4, evaluated at the failing input: both the status-changed and the
assigned event address their email to the empty string, because the
callers pass an empty user email instead of the creator address; the
ticket-created event does address the fixed support inbox. -/
theorem notification_email_recipients :
    (handleUpdateStatusEmail sampleTicket "t1" "resolved").«to» = "" ∧
    (handleAssignTicketEmail sampleTicket "t1").«to» = "" ∧
    (sendTicketCreatedNotification
      ⟨"t1", "Printer broken", "Ada", "ada@example.com", none,
       some "technical", some "It jams on every page"⟩).to
      = "support@company.com" :=
  ⟨rfl, rfl, rfl⟩

/-- C9 fails as stated: with the service flag off, an input missing the
required to field is answered with a 400 error, not a success result,
because field validation runs before the flag check. -/
theorem postSendEmail_disabled_counterexample :
    (postSendEmail false true ⟨none, some "s", some "hello", none⟩ .ok).1.success
      = false ∧
    postSendEmail false true ⟨none, some "s", some "hello", none⟩ .ok
      = (⟨400, false⟩, false) := ⟨rfl, rfl⟩

/-- C9 amended: with the service flag off, every input whose required
fields to, subject and body are present and non-empty is answered with a
200 success response and no provider send is performed; the client-side
sendEmail returns true without contacting the endpoint whatever the fetch
would have produced. -/
theorem sendEmail_disabled_reports_success (req : EmailRequestBody)
    (hasApiKey : Bool) (r : ResendOutcome) (fetchResult : Option Bool)
    (hto : isFalsy req.«to» = false) (hsub : isFalsy req.subject = false)
    (hbody : isFalsy req.body = false) :
    postSendEmail false hasApiKey req r = (⟨200, true⟩, false) ∧
    sendEmail false fetchResult = (true, false) := by
  refine ⟨?_, rfl⟩
  simp [postSendEmail, hto, hsub, hbody]

/-- Witness for the amended C9 at a concrete request. -/
theorem sendEmail_disabled_reports_success_witness :
    isFalsy (some "a@b.co") = false ∧
    postSendEmail false true ⟨some "a@b.co", some "Hi", some "Hello there", none⟩
      .ok = (⟨200, true⟩, false) ∧
    sendEmail false none = (true, false) :=
  ⟨rfl,
   (sendEmail_disabled_reports_success
     ⟨some "a@b.co", some "Hi", some "Hello there", none⟩ true .ok none
     rfl rfl rfl).1,
   (sendEmail_disabled_reports_success
     ⟨some "a@b.co", some "Hi", some "Hello there", none⟩ true .ok none
     rfl rfl rfl).2⟩

end QuickDesk
